import Mathlib

/-!
Verification development for the speed-read repository (RSVP speed reader).

Shallow embedding of the reading-session engine:
* `utils.js` — `pauseMultiplier`, citation filters (`removeParentheticalCitations`);
* `persistence.js` — bookmark / pins / settings persistence;
* `SpeedReader.jsx` — playback scheduler (`scheduleNext`), seek paths,
  `addPin`, the debounced bookmark auto-save effect, `exitToHome`.

JavaScript numbers are modelled as exact rationals (`ℚ`); all delay and
drift computations in the source stay far from binary-representability
edge cases, so rational arithmetic is a faithful model.  Token sequences
are `List String`, ordinals are `ℕ`.
-/

namespace SpeedRead

/-! ## utils.js: pauseMultiplier -/

/-- Last character of a word, if any (JS regex `$` anchors at end of input). -/
def lastChar? (word : String) : Option Char :=
  word.data.getLast?

/-- JS regex test `/[.!?]$/.test(word)` — word ends in sentence punctuation. -/
def endsSentence (word : String) : Bool :=
  match lastChar? word with
  | some c => c = '.' || c = '!' || c = '?'
  | none => false

/-- JS regex test `/[,;:]$/.test(word)` — word ends in clause punctuation. -/
def endsClause (word : String) : Bool :=
  match lastChar? word with
  | some c => c = ',' || c = ';' || c = ':'
  | none => false

/-- `pauseMultiplier(word, pauseScale = 1.0)` from `utils.js`:
```js
let raw = 1;
if (/[.!?]$/.test(word)) raw = 2.8;
else if (/[,;:]$/.test(word)) raw = 1.6;
return 1 + (raw - 1) * pauseScale;
``` -/
def pauseMultiplier (word : String) (pauseScale : ℚ) : ℚ :=
  let raw : ℚ := if endsSentence word then 2.8 else if endsClause word then 1.6 else 1
  1 + (raw - 1) * pauseScale

/-- Raw pause factor as the spec words it (for the refinement statement of C2):
trailing `.`/`!`/`?` gives 2.8, trailing `,`/`;`/`:` gives 1.6, else 1. -/
def rawFactorSpec (word : String) : ℚ :=
  if endsSentence word then 2.8 else if endsClause word then 1.6 else 1

/-- Pause multiplier as the spec words it: `1 + (rawFactor - 1) * pauseScale`. -/
def pauseMultiplierSpec (word : String) (pauseScale : ℚ) : ℚ :=
  1 + (rawFactorSpec word - 1) * pauseScale

/-! ## SpeedReader.jsx: session state and the playback scheduler

The mutable React state relevant to the scheduler and the seek paths is
`words` (the token sequence), `currentIndex` (current token ordinal) and
`isPlaying`.  Each user-facing operation is embedded as a function on this
state. -/

structure Session where
  words : List String
  idx : ℕ
  playing : Bool
  deriving Repr, DecidableEq

/-- Session-state invariant from the spec:
`0 ≤ current token ordinal < total token count whenever total > 0`
(ordinals are `ℕ`, so only the upper bound is substantive). -/
def SessionInv (s : Session) : Prop :=
  0 < s.words.length → s.idx < s.words.length

instance (s : Session) : Decidable (SessionInv s) := by
  unfold SessionInv; infer_instance

/-- The token whose pause multiplier times the chunk starting at ordinal `i`:
`words[Math.min(index + chunkSize - 1, words.length - 1)]` in `scheduleNext`. -/
def chunkLastToken (words : List String) (chunkSize i : ℕ) : String :=
  words.getD (min (i + chunkSize - 1) (words.length - 1)) ("")

/-- The delay `scheduleNext` computes for the chunk starting at ordinal `i`:
```js
const word = words[Math.min(index + chunkSize - 1, words.length - 1)];
const baseMs = (60000 / wpm) * chunkSize;
const delay = baseMs * pauseMultiplier(word, pauseScale);
``` -/
def scheduleNextDelay (words : List String) (wpm : ℚ) (chunkSize : ℕ)
    (pauseScale : ℚ) (i : ℕ) : ℚ :=
  let baseMs : ℚ := (60000 / wpm) * (chunkSize : ℚ)
  baseMs * pauseMultiplier (chunkLastToken words chunkSize i) pauseScale

/-- Entry guard of `scheduleNext`: called at ordinal `index`, it stops playback
without arming a timer when `index >= words.length`; otherwise it arms a timer
with `scheduleNextDelay` and leaves the state alone.  Returns the armed delay
(if any) together with the immediate state. -/
def scheduleNextArm (s : Session) (wpm : ℚ) (chunkSize : ℕ) (pauseScale : ℚ) :
    Option ℚ × Session :=
  if s.words.length ≤ s.idx then (none, { s with playing := false })
  else (some (scheduleNextDelay s.words wpm chunkSize pauseScale s.idx), s)

/-- Timer-fire body of `scheduleNext`:
```js
const next = index + chunkSize;
if (next >= words.length) { setIsPlaying(false); setCurrentIndex(words.length - 1); return; }
setCurrentIndex(next);
scheduleNext(next);
``` -/
def scheduleNextFire (s : Session) (chunkSize : ℕ) : Session :=
  let next := s.idx + chunkSize
  if s.words.length ≤ next then { s with playing := false, idx := s.words.length - 1 }
  else { s with idx := next }

/-! ## SpeedReader.jsx: document load, restart and the seek paths -/

/-- Document-load tail common to `processFile` / `startFromPaste` / `startDemo`:
`setIsPlaying(false); setCurrentIndex(0); ... setWords(tokenizedWords)`. -/
def loadDoc (tokens : List String) : Session :=
  { words := tokens, idx := 0, playing := false }

/-- `restart`: `setIsPlaying(false); setCurrentIndex(0)`. -/
def restart (s : Session) : Session :=
  { s with playing := false, idx := 0 }

/-- Scrubber `onChange`: the DOM range input carries `min={0}` and
`max={Math.max(0, words.length - 1)}`, so the delivered value is already
inside that range; the handler runs
`setCurrentIndex(Number(e.target.value)); setIsPlaying(false)`. -/
def scrubberSeek (s : Session) (v : ℕ) : Session :=
  { s with idx := min v (s.words.length - 1), playing := false }

/-- Keydown `ArrowLeft`: `setCurrentIndex((i) => Math.max(0, i - 10))`
(truncated `ℕ` subtraction is exactly `Math.max(0, i - 10)`);
the play state is not touched. -/
def arrowLeft (s : Session) : Session :=
  { s with idx := s.idx - 10 }

/-- Keydown `ArrowRight`:
`setCurrentIndex((i) => Math.min(words.length - 1, i + 10))`;
the play state is not touched. -/
def arrowRight (s : Session) : Session :=
  { s with idx := min (s.words.length - 1) (s.idx + 10) }

/-- Table-of-contents jump, `onSeek={(idx) => { setCurrentIndex(idx); setIsPlaying(false); }}` —
the requested ordinal is stored without clamping. -/
def tocSeek (s : Session) (idx : ℕ) : Session :=
  { s with idx := idx, playing := false }

/-- PDF page click, `onPageClick`: `setCurrentIndex(pb.wordIndex); setIsPlaying(false)` —
the page break's ordinal is stored without clamping. -/
def pageClickSeek (s : Session) (wordIndex : ℕ) : Session :=
  { s with idx := wordIndex, playing := false }

/-- Bookmark resume (keydown `b` / resume-banner button):
`setCurrentIndex(pendingResume.wordIndex)` — no clamping, play state untouched. -/
def bookmarkResume (s : Session) (wordIndex : ℕ) : Session :=
  { s with idx := wordIndex }

/-! ## utils.js: removeParentheticalCitations

The filter is a single global regex replace with the empty string:
the pattern matches an opening parenthesis, one author-year citation unit,
any number of semicolon-separated further units, and a closing parenthesis.
A citation unit is: an optional lead-in (`see`, `cf.`, or `e.g.` with
optional comma, followed by whitespace), an author name (capital letter then
one or more name characters: ASCII letters, `À`-`ɏ`, apostrophe,
hyphen), any number of further names joined by `\s*[&,]\s*` or `\s+and\s+`,
an optional `\s+et\s+al\.?`, an optional comma, optional whitespace, a year
(`19` or `20` then two digits), and an optional `\s*[a-z]` suffix letter.

The pattern is embedded as a regex AST interpreted by a fuel-indexed
backtracking matcher with ECMAScript semantics: alternatives are tried left
to right, quantifiers are greedy, a `*` iteration that consumes nothing ends
the loop, and the global replace removes successive leftmost matches. -/

/-- Regex AST (the fragment the citation pattern uses). -/
inductive Re where
  | cls (p : Char → Bool)
  | lit (s : List Char)
  | seq (a b : Re)
  | alt (a b : Re)
  | star (a : Re)
  | opt (a : Re)

/-- Literal from a string. -/
def litStr (s : String) : Re := .lit s.data

/-- One-or-more, encoded as `a` then `a*` (equivalent to ECMAScript `+`). -/
def rePlus (a : Re) : Re := .seq a (.star a)

/-- Strip a literal prefix. -/
def dropLit : List Char → List Char → Option (List Char)
  | [], input => some input
  | _ :: _, [] => none
  | c :: cs, d :: ds => if c = d then dropLit cs ds else none

/-- Fuel-indexed backtracking matcher.  The continuation receives the suffix
left after the part matched so far; the first success in ECMAScript trial
order is returned.  `none` for a failed match (or exhausted fuel — the
concrete evaluations below use ample fuel). -/
def reMatch : ℕ → Re → List Char → (List Char → Option (List Char)) → Option (List Char)
  | 0, _, _, _ => none
  | _ + 1, .cls p, input, k =>
    match input with
    | [] => none
    | c :: rest => if p c then k rest else none
  | _ + 1, .lit s, input, k =>
    match dropLit s input with
    | some rest => k rest
    | none => none
  | fuel + 1, .seq a b, input, k =>
    reMatch fuel a input (fun rest => reMatch fuel b rest k)
  | fuel + 1, .alt a b, input, k =>
    (reMatch fuel a input k).orElse (fun _ => reMatch fuel b input k)
  | fuel + 1, .opt a, input, k =>
    (reMatch fuel a input k).orElse (fun _ => k input)
  | fuel + 1, .star a, input, k =>
    (reMatch fuel a input (fun rest =>
        if rest.length < input.length then reMatch fuel (.star a) rest k
        else k rest)).orElse (fun _ => k input)

/-- One global `replace(re, "")` scan: repeatedly find the leftmost match
from the current position and drop it; positions with no match emit their
character.  Structural on the scan fuel (instantiated with the input
length, which bounds the number of scan steps). -/
def reStripAll (fuel : ℕ) (r : Re) : ℕ → List Char → List Char
  | 0, input => input
  | scanFuel + 1, input =>
    match reMatch fuel r input some with
    | some rest =>
      if rest.length < input.length then reStripAll fuel r scanFuel rest
      else
        match input with
        | [] => []
        | c :: cs => c :: reStripAll fuel r scanFuel cs
    | none =>
      match input with
      | [] => []
      | c :: cs => c :: reStripAll fuel r scanFuel cs

/-- `[A-Z]`. -/
def isAsciiUpper (c : Char) : Bool := 65 ≤ c.toNat && c.toNat ≤ 90

/-- `[a-z]`. -/
def isAsciiLower (c : Char) : Bool := 97 ≤ c.toNat && c.toNat ≤ 122

/-- `\d`. -/
def isDigitCh (c : Char) : Bool := 48 ≤ c.toNat && c.toNat ≤ 57

/-- The author-name character class: ASCII letters, `À`-`ɏ`,
apostrophe (code 39), hyphen. -/
def isNameChar (c : Char) : Bool :=
  isAsciiUpper c || isAsciiLower c ||
  (0xC0 ≤ c.toNat && c.toNat ≤ 0x24F) || c.toNat = 39 || c = '-'

/-- ECMAScript `\s`: ASCII whitespace, NBSP, BOM and the Unicode space
separators. -/
def isJsWhitespace (c : Char) : Bool :=
  c = ' ' || c = '\t' || c = '\n' || c.toNat = 13 || c.toNat = 11 ||
  c.toNat = 12 || c.toNat = 0xA0 || c.toNat = 0x1680 ||
  (0x2000 ≤ c.toNat && c.toNat ≤ 0x200A) || c.toNat = 0x2028 ||
  c.toNat = 0x2029 || c.toNat = 0x202F || c.toNat = 0x205F ||
  c.toNat = 0x3000 || c.toNat = 0xFEFF

/-- `\s*`. -/
def wsStar : Re := .star (.cls isJsWhitespace)

/-- `\s+`. -/
def wsPlus : Re := rePlus (.cls isJsWhitespace)

/-- Optional citation lead-in: `see`, `cf.` or `e.g.` with optional comma,
followed by whitespace. -/
def citeLeadin : Re :=
  .opt (.seq
    (.alt (litStr ("see"))
      (.alt (litStr ("cf."))
        (.seq (litStr ("e.g.")) (.opt (litStr (","))))))
    wsPlus)

/-- One author name: a capital letter then one or more name characters. -/
def citeName : Re := .seq (.cls isAsciiUpper) (rePlus (.cls isNameChar))

/-- Name separator: `\s*[&,]\s*` or `\s+and\s+`. -/
def citeNameSep : Re :=
  .alt (.seq wsStar (.seq (.cls (fun c => c = '&' || c = ',')) wsStar))
       (.seq wsPlus (.seq (litStr ("and")) wsPlus))

/-- One or more author names. -/
def citeAuthors : Re := .seq citeName (.star (.seq citeNameSep citeName))

/-- Optional `\s+et\s+al\.?`. -/
def citeEtAl : Re :=
  .opt (.seq wsPlus
    (.seq (litStr ("et"))
      (.seq wsPlus (.seq (litStr ("al")) (.opt (litStr (".")))))))

/-- Year: `19` or `20` then two digits. -/
def citeYear : Re :=
  .seq (.alt (litStr ("19")) (litStr ("20"))) (.seq (.cls isDigitCh) (.cls isDigitCh))

/-- Optional `\s*[a-z]` disambiguation letter after the year. -/
def citeYearLetter : Re := .opt (.seq wsStar (.cls isAsciiLower))

/-- One author-year citation unit. -/
def citeUnit : Re :=
  .seq citeLeadin
    (.seq citeAuthors
      (.seq citeEtAl
        (.seq (.opt (litStr (",")))
          (.seq wsStar (.seq citeYear citeYearLetter)))))

/-- A semicolon-separated further citation unit: `\s*;\s*` then a unit. -/
def citeMore : Re := .seq wsStar (.seq (litStr (";")) (.seq wsStar citeUnit))

/-- The whole pattern of `removeParentheticalCitations`. -/
def parentheticalCitationRe : Re :=
  .seq (litStr ("(")) (.seq citeUnit (.seq (.star citeMore) (litStr (")"))))

/-- `removeParentheticalCitations(text)` from `utils.js`. -/
def removeParentheticalCitations (text : String) : String :=
  ⟨reStripAll 1000 parentheticalCitationRe (text.length + 1) text.data⟩

/-! ## persistence.js: bookmark records and the resume offer -/

/-- Stored bookmark record (`saveBookmark` stores
`{ fileName, wordIndex, wordCount, savedAt }`; `savedAt` plays no role in any
claim and is omitted). -/
structure BookmarkRecord where
  fileName : String
  wordIndex : ℕ
  wordCount : ℕ
  deriving Repr, DecidableEq

/-- The bookmark keyspace `swiftread:bookmark:{contentHash}`: one optional
record per fingerprint string. -/
def BookmarkStore := String → Option BookmarkRecord

/-- The empty-store default. -/
def emptyBookmarkStore : BookmarkStore := fun _ => none

/-- `saveBookmark(contentHash, fileName, wordIndex, wordCount)`. -/
def saveBookmark (store : BookmarkStore) (contentHash fileName : String)
    (wordIndex wordCount : ℕ) : BookmarkStore :=
  fun h => if h = contentHash then some ⟨fileName, wordIndex, wordCount⟩ else store h

/-- `clearBookmark(contentHash)`. -/
def clearBookmark (store : BookmarkStore) (contentHash : String) : BookmarkStore :=
  fun h => if h = contentHash then none else store h

/-- A pending resume offer (`setPendingResume({ wordIndex, isFresh })`). -/
structure Resume where
  wordIndex : ℕ
  isFresh : Bool
  deriving Repr, DecidableEq

/-- Bookmark check shared verbatim by `processFile` and `startFromPaste`:
```js
const bookmark = loadBookmark(hash);
if (bookmark && bookmark.wordIndex > 0 && bookmark.wordIndex < tokenizedWords.length) {
  const drift = Math.abs(bookmark.wordCount - tokenizedWords.length) / bookmark.wordCount;
  setPendingResume({ wordIndex: bookmark.wordIndex, isFresh: drift <= 0.05 });
}
```
`pendingResume` was reset to `null` earlier in both callers, so no offer is
produced when the guard fails.  A stored `wordCount` of `0` would make the JS
division produce `Infinity`/`NaN`, for which `<= 0.05` is `false`; the
`wordCount = 0` branch encodes that. -/
def checkBookmark (bookmark : Option BookmarkRecord) (newTotal : ℕ) : Option Resume :=
  match bookmark with
  | none => none
  | some b =>
    if 0 < b.wordIndex ∧ b.wordIndex < newTotal then
      some ⟨b.wordIndex,
        if b.wordCount = 0 then false
        else decide (|(b.wordCount : ℚ) - (newTotal : ℚ)| / (b.wordCount : ℚ) ≤ 0.05)⟩
    else none

/-! ## SpeedReader.jsx: debounced bookmark auto-save and exitToHome

The auto-save effect:
```js
useEffect(() => {
  if (!contentHash || words.length === 0 || currentIndex === 0) return;
  clearTimeout(saveTimerRef.current);
  saveTimerRef.current = setTimeout(() => {
    saveBookmark(contentHash, fileName, currentIndex, words.length);
  }, 1500);
  return () => clearTimeout(saveTimerRef.current);
}, [contentHash, currentIndex, words.length, fileName]);
```
React runs the previous effect's cleanup (which clears any armed timer)
before the next body, so after any dependency change at most one debounce
timer is pending: the one armed by the latest body whose guard passed.
The subsystem is modelled as the bookmark store plus that single optional
pending write. -/

/-- Arguments of a debounce-delayed `saveBookmark` call. -/
structure PendingSave where
  contentHash : String
  fileName : String
  wordIndex : ℕ
  wordCount : ℕ
  deriving Repr, DecidableEq

structure AutoSaveState where
  store : BookmarkStore
  pending : Option PendingSave

/-- Net effect (cleanup of the previous run + new body) of the auto-save
effect after its dependencies changed to the given values. -/
def autoSaveEffect (a : AutoSaveState) (contentHash : Option String)
    (fileName : String) (currentIndex total : ℕ) : AutoSaveState :=
  match contentHash with
  | none => { a with pending := none }
  | some h =>
    if total = 0 ∨ currentIndex = 0 then { a with pending := none }
    else { a with pending := some ⟨h, fileName, currentIndex, total⟩ }

/-- The debounce timer fires: the delayed `saveBookmark` call runs. -/
def autoSaveFire (a : AutoSaveState) : AutoSaveState :=
  match a.pending with
  | none => a
  | some p =>
    { store := saveBookmark a.store p.contentHash p.fileName p.wordIndex p.wordCount
      pending := none }

/-- `exitToHome` as seen by the auto-save subsystem: it sets
`words = []`, `currentIndex = 0`, `contentHash = null` (and performs no
bookmark write of its own), so the effect re-runs with a failing guard —
the pending write is cancelled, the store untouched. -/
def exitToHome (a : AutoSaveState) : AutoSaveState :=
  autoSaveEffect a none ("") 0 0

/-! ## SpeedReader.jsx / persistence.js: named pins

`addPin` (with `currentIndex = cur`):
```js
const newPin = { wordIndex: currentIndex, context, createdAt: Date.now() };
const updated = [...pins, newPin].sort((a, b) => a.wordIndex - b.wordIndex);
const deduped = updated.filter(
  (p, i) => i === 0 || Math.abs(p.wordIndex - updated[i - 1].wordIndex) > 5
);
setPins(deduped);
if (contentHash) savePins(contentHash, deduped);
```
Sorting and deduplication read only `wordIndex`, so pins are modelled by
their ordinal (`ℕ`); `Array.prototype.sort` with an ascending numeric
comparator is modelled by insertion sort (any sorted permutation). -/

/-- Tail of the dedup filter: `prev` is the element at the previous position
of the sorted array (whether or not it was kept). -/
def dedupPinsGo : ℕ → List ℕ → List ℕ
  | _, [] => []
  | prev, y :: ys =>
    (if 5 < ((y : ℤ) - (prev : ℤ)).natAbs then [y] else []) ++ dedupPinsGo y ys

/-- The dedup filter: keep element `i` when `i = 0` or its distance to the
element at `i - 1` of the sorted array (kept or not) exceeds 5. -/
def dedupPins : List ℕ → List ℕ
  | [] => []
  | x :: xs => x :: dedupPinsGo x xs

/-- `addPin` at ordinal `cur` over the in-memory pin list. -/
def addPin (pins : List ℕ) (cur : ℕ) : List ℕ :=
  dedupPins (List.insertionSort (· ≤ ·) (pins ++ [cur]))

/-- The pins keyspace `swiftread:pins:{contentHash}`. -/
def PinStore := String → List ℕ

/-- The empty pins store (`loadPins` of absent storage yields `[]`). -/
def emptyPinStore : PinStore := fun _ => []

/-- `savePins(contentHash, pins)`. -/
def savePins (store : PinStore) (contentHash : String) (pins : List ℕ) : PinStore :=
  fun h => if h = contentHash then pins else store h

/-- `addPin` including its `savePins` write (the `contentHash` is present). -/
def addPinStore (store : PinStore) (contentHash : String) (cur : ℕ) : PinStore :=
  savePins store contentHash (addPin (store contentHash) cur)

/-- A raw persisted pin entry as `loadPins` sees it after `JSON.parse`:
each field is `some` exactly when the stored field is of the expected
JS number type. -/
structure RawPin where
  wordIndex : Option ℕ
  createdAt : Option ℕ
  deriving Repr, DecidableEq

/-- `loadPins` validity filter:
```js
return data.filter(
  (p) => typeof p.wordIndex === "number" && typeof p.createdAt === "number"
);
```
No proximity-based deduplication happens on read. -/
def loadPins (data : List RawPin) : List RawPin :=
  data.filter (fun p => p.wordIndex.isSome && p.createdAt.isSome)

/-! ## persistence.js: settings round trip -/

/-- In-memory settings object (the shape `saveSettings` receives from the
auto-save-settings effect).  Numeric dials are rationals, the chunk width is
an integer (the UI only ever produces small positive integers, but the load
coercion is total over integers). -/
structure Settings where
  wpm : ℚ
  chunkSize : ℤ
  showORP : Bool
  marginPercent : ℚ
  pauseScale : ℚ
  spacingThreshold : ℚ
  filterCitations : Bool
  filterReferenceSections : Bool
  filterCaptions : Bool
  filterPageNumbers : Bool
  deriving Repr, DecidableEq

/-- `DEFAULTS` from persistence.js. -/
def DEFAULTS : Settings :=
  { wpm := 300, chunkSize := 1, showORP := true, marginPercent := 0.08
    pauseScale := 1.0, spacingThreshold := 1.2, filterCitations := true
    filterReferenceSections := true, filterCaptions := false
    filterPageNumbers := false }

/-- A parsed stored settings object: each field is `some` exactly when the
stored JSON field exists and has the expected JS type (`loadSettings` checks
`typeof` field by field). -/
structure StoredSettings where
  wpm : Option ℚ
  chunkSize : Option ℤ
  showORP : Option Bool
  marginPercent : Option ℚ
  pauseScale : Option ℚ
  spacingThreshold : Option ℚ
  filterCitations : Option Bool
  filterReferenceSections : Option Bool
  filterCaptions : Option Bool
  filterPageNumbers : Option Bool
  deriving Repr, DecidableEq

/-- `saveSettings(settings)`: `JSON.stringify` of a well-typed settings object
stores every field with its expected type. -/
def saveSettings (s : Settings) : StoredSettings :=
  { wpm := some s.wpm, chunkSize := some s.chunkSize, showORP := some s.showORP
    marginPercent := some s.marginPercent, pauseScale := some s.pauseScale
    spacingThreshold := some s.spacingThreshold
    filterCitations := some s.filterCitations
    filterReferenceSections := some s.filterReferenceSections
    filterCaptions := some s.filterCaptions
    filterPageNumbers := some s.filterPageNumbers }

/-- `loadSettings()`: absent storage yields `DEFAULTS`; otherwise field-by-field
defaulting, with the chunk width coerced to odd:
```js
const chunkRaw = typeof data.chunkSize === "number" ? data.chunkSize : DEFAULTS.chunkSize;
chunkSize: chunkRaw % 2 === 0 ? chunkRaw - 1 : chunkRaw,
```
(JS `%` and Lean's `Int` `%` agree on whether an integer is even). -/
def loadSettings (stored : Option StoredSettings) : Settings :=
  match stored with
  | none => DEFAULTS
  | some d =>
    let chunkRaw := d.chunkSize.getD DEFAULTS.chunkSize
    { wpm := d.wpm.getD DEFAULTS.wpm
      chunkSize := if chunkRaw % 2 = 0 then chunkRaw - 1 else chunkRaw
      showORP := d.showORP.getD DEFAULTS.showORP
      marginPercent := d.marginPercent.getD DEFAULTS.marginPercent
      pauseScale := d.pauseScale.getD DEFAULTS.pauseScale
      spacingThreshold := d.spacingThreshold.getD DEFAULTS.spacingThreshold
      filterCitations := d.filterCitations.getD DEFAULTS.filterCitations
      filterReferenceSections := d.filterReferenceSections.getD DEFAULTS.filterReferenceSections
      filterCaptions := d.filterCaptions.getD DEFAULTS.filterCaptions
      filterPageNumbers := d.filterPageNumbers.getD DEFAULTS.filterPageNumbers }

/-! ## Helper lemmas for the pin-deduplication invariant -/

instance : IsTrans ℕ (fun a b => a + 5 < b) :=
  ⟨fun _ _ _ h1 h2 => by omega⟩

/-- Kept elements of the dedup tail, prefixed with any lower bound `p0` of the
previous original element, are chained with gaps above 5. -/
theorem dedupPinsGo_chain :
    ∀ (xs : List ℕ) (prev p0 : ℕ), List.Sorted (· ≤ ·) (prev :: xs) → p0 ≤ prev →
      List.Chain' (fun a b => a + 5 < b) (p0 :: dedupPinsGo prev xs)
  | [], _, _, _, _ => List.chain'_singleton _
  | y :: ys, prev, p0, hsort, hp0 => by
    have hpy : prev ≤ y := (List.sorted_cons.mp hsort).1 y (by simp)
    have hsort' : List.Sorted (· ≤ ·) (y :: ys) := (List.sorted_cons.mp hsort).2
    unfold dedupPinsGo
    by_cases hk : 5 < ((y : ℤ) - (prev : ℤ)).natAbs
    · rw [if_pos hk]
      simp only [List.singleton_append]
      exact List.Chain'.cons (by omega) (dedupPinsGo_chain ys y y hsort' le_rfl)
    · rw [if_neg hk]
      simp only [List.nil_append]
      exact dedupPinsGo_chain ys y p0 hsort' (hp0.trans hpy)

/-- On a sorted list, the dedup filter produces adjacent gaps above 5. -/
theorem dedupPins_chain (l : List ℕ) (hl : List.Sorted (· ≤ ·) l) :
    List.Chain' (fun a b => a + 5 < b) (dedupPins l) := by
  cases l with
  | nil => simp [dedupPins]
  | cons x xs => exact dedupPinsGo_chain xs x x hl le_rfl

/-- Every `addPin` result is pairwise separated by more than 5 ordinals. -/
theorem addPin_pairwise (pins : List ℕ) (cur : ℕ) :
    List.Pairwise (fun a b => a + 5 < b) (addPin pins cur) :=
  List.chain'_iff_pairwise.mp
    (dedupPins_chain _ (List.sorted_insertionSort _ _))

/-- Every `addPin` result is sorted by ordinal. -/
theorem addPin_sorted (pins : List ℕ) (cur : ℕ) :
    List.Sorted (· ≤ ·) (addPin pins cur) :=
  (addPin_pairwise pins cur).imp (fun h => by omega)

/-! ## Concrete sample values used by witnesses -/

/-- A concrete 3-token document. -/
def sampleWords : List String := [("speed"), ("read"), ("now.")]

/-- A playing session at ordinal 0 over `sampleWords`. -/
def sampleSession : Session := { words := sampleWords, idx := 0, playing := true }

/-- An auto-save state with an empty store and no pending write. -/
def sampleAutoSave : AutoSaveState := { store := emptyBookmarkStore, pending := none }

/-! ## Claim theorems -/

/-- The token `end.` ends in sentence punctuation. -/
theorem endsSentence_end : endsSentence ("end.") = true := by decide

/-- C2: for every token `w` and every pauseScale `s`, the pause multiplier
equals `1 + (r - 1) * s` with the raw factor `r` determined by the trailing
punctuation exactly as the spec states; concretely, for the token `end.` the
multiplier is 1.9 at scale 0.5, 2.8 at scale 1, 4.6 at scale 2, and at scale
0 the multiplier is 1 for every token. -/
theorem C2_pauseMultiplier_formula :
    (∀ w s, pauseMultiplier w s = pauseMultiplierSpec w s) ∧
    pauseMultiplier ("end.") (0.5) = 1.9 ∧
    pauseMultiplier ("end.") (1.0) = 2.8 ∧
    pauseMultiplier ("end.") (2.0) = 4.6 ∧
    (∀ w, pauseMultiplier w 0 = 1) := by
  refine ⟨fun w s => rfl,
    by norm_num [pauseMultiplier, endsSentence_end],
    by norm_num [pauseMultiplier, endsSentence_end],
    by norm_num [pauseMultiplier, endsSentence_end],
    fun w => ?_⟩
  simp [pauseMultiplier]

/-- C8: the parenthetical-citation filter removes the author-year citation in
`This is true (Smith, 2020) indeed.` (leaving the double space) and returns
`It happened (in 1985, during a recession) quickly.` unchanged. -/
theorem C8_parenthetical_citation_filter :
    removeParentheticalCitations ("This is true (Smith, 2020) indeed.") =
      ("This is true  indeed.") ∧
    removeParentheticalCitations ("It happened (in 1985, during a recession) quickly.") =
      ("It happened (in 1985, during a recession) quickly.") := by
  constructor <;> decide

/-- C9: the settings round trip coerces the chunk width to odd on load —
even values are decremented by one, odd values round-trip unchanged; in
particular saving chunk width 4 reloads as 3 and saving 3 reloads as 3. -/
theorem C9_chunk_width_roundtrip :
    (∀ s : Settings, (loadSettings (some (saveSettings s))).chunkSize =
      if s.chunkSize % 2 = 0 then s.chunkSize - 1 else s.chunkSize) ∧
    (loadSettings (some (saveSettings { DEFAULTS with chunkSize := 4 }))).chunkSize = 3 ∧
    (loadSettings (some (saveSettings { DEFAULTS with chunkSize := 3 }))).chunkSize = 3 := by
  refine ⟨fun s => rfl, by decide, by decide⟩

/-- C1: for a playing session over a non-empty token sequence at ordinal `i`
with chunk width `c`, rate `wpm` and pause scale `scale`, `scheduleNext` arms
its timer with delay `(60000 / wpm) * c` multiplied by the pause multiplier of
the token at index `min (i + c - 1) (total - 1)` (the last token of the
chunk); when the timer fires the ordinal advances by exactly `c`, and if the
new ordinal reaches or exceeds `total`, playback stops and the ordinal is
clamped to `total - 1` without wrapping. -/
theorem C1_scheduleNext_step (s : Session) (wpm : ℚ) (c : ℕ) (scale : ℚ)
    (hne : 0 < s.words.length) (hidx : s.idx < s.words.length) :
    scheduleNextArm s wpm c scale =
      (some ((60000 / wpm) * (c : ℚ) *
        pauseMultiplier (s.words.getD (min (s.idx + c - 1) (s.words.length - 1)) ("")) scale),
       s) ∧
    (s.words.length ≤ s.idx + c →
      (scheduleNextFire s c).playing = false ∧
      (scheduleNextFire s c).idx = s.words.length - 1) ∧
    (s.idx + c < s.words.length →
      (scheduleNextFire s c).idx = s.idx + c ∧
      (scheduleNextFire s c).playing = s.playing) := by
  refine ⟨?_, fun h => ?_, fun h => ?_⟩
  · unfold scheduleNextArm
    rw [if_neg (not_le.mpr hidx)]
    simp [scheduleNextDelay, chunkLastToken]
  · unfold scheduleNextFire
    simp only []
    rw [if_pos h]
    exact ⟨rfl, rfl⟩
  · unfold scheduleNextFire
    simp only []
    rw [if_neg (not_le.mpr h)]
    exact ⟨rfl, rfl⟩

/-- C1 witness: the scheduler step evaluated on a concrete playing session
(3 tokens, chunk width 2, 300 wpm, pause scale 1). -/
theorem C1_scheduleNext_step_witness :
    0 < sampleSession.words.length ∧ sampleSession.idx < sampleSession.words.length ∧
    (scheduleNextArm sampleSession 300 2 1 =
      (some ((60000 / 300) * ((2 : ℕ) : ℚ) *
        pauseMultiplier (sampleSession.words.getD
          (min (sampleSession.idx + 2 - 1) (sampleSession.words.length - 1)) ("")) 1),
       sampleSession) ∧
    (sampleSession.words.length ≤ sampleSession.idx + 2 →
      (scheduleNextFire sampleSession 2).playing = false ∧
      (scheduleNextFire sampleSession 2).idx = sampleSession.words.length - 1) ∧
    (sampleSession.idx + 2 < sampleSession.words.length →
      (scheduleNextFire sampleSession 2).idx = sampleSession.idx + 2 ∧
      (scheduleNextFire sampleSession 2).playing = sampleSession.playing)) :=
  ⟨by decide, by decide, C1_scheduleNext_step sampleSession 300 2 1 (by decide) (by decide)⟩

/-- C3 counterexample: the table-of-contents jump stores the requested
ordinal without clamping — seeking to ordinal 5 in a freshly loaded 3-token
document leaves the session at ordinal 5 with total 3, violating the
invariant, so out-of-range seek requests on this path are not clamped. -/
theorem C3_counterexample_toc_not_clamped :
    ¬ SessionInv (tocSeek (loadDoc [("a"), ("b"), ("c")]) 5) := by decide

/-- C3 (amended): whenever the total token count is positive,
`0 ≤ ordinal < total` is preserved by document load, scheduler advance,
restart, scrubber seek and the arrow-key jumps unconditionally; the
table-of-contents jump, page click and bookmark resume store their requested
ordinal without clamping and preserve the invariant exactly when the
requested ordinal is in range. -/
theorem C3_session_invariant (s : Session) (hs : SessionInv s)
    (tokens : List String) (c v j : ℕ) :
    SessionInv (loadDoc tokens) ∧
    SessionInv (scheduleNextFire s c) ∧
    SessionInv (restart s) ∧
    SessionInv (scrubberSeek s v) ∧
    SessionInv (arrowLeft s) ∧
    SessionInv (arrowRight s) ∧
    (j < s.words.length →
      SessionInv (tocSeek s j) ∧ SessionInv (pageClickSeek s j) ∧
      SessionInv (bookmarkResume s j)) := by
  unfold SessionInv at hs ⊢
  refine ⟨fun h => ?_, fun h => ?_, fun h => ?_, fun h => ?_, fun h => ?_, fun h => ?_,
    fun hj => ⟨fun h => ?_, fun h => ?_, fun h => ?_⟩⟩
  · simpa [loadDoc] using h
  · revert h
    unfold scheduleNextFire
    simp only []
    split <;> intro h <;> simp_all
  · simpa [restart] using h
  · simp only [scrubberSeek] at h ⊢
    omega
  · simp only [arrowLeft] at h ⊢
    have := hs h
    omega
  · simp only [arrowRight] at h ⊢
    omega
  · simpa [tocSeek] using hj
  · simpa [pageClickSeek] using hj
  · simpa [bookmarkResume] using hj

/-- C3 witness: the invariant-preservation theorem evaluated on a concrete
in-range session and concrete operation arguments. -/
theorem C3_session_invariant_witness :
    SessionInv sampleSession ∧
    (SessionInv (loadDoc [("x")]) ∧
    SessionInv (scheduleNextFire sampleSession 2) ∧
    SessionInv (restart sampleSession) ∧
    SessionInv (scrubberSeek sampleSession 7) ∧
    SessionInv (arrowLeft sampleSession) ∧
    SessionInv (arrowRight sampleSession) ∧
    (1 < sampleSession.words.length →
      SessionInv (tocSeek sampleSession 1) ∧
      SessionInv (pageClickSeek sampleSession 1) ∧
      SessionInv (bookmarkResume sampleSession 1))) :=
  ⟨by decide, C3_session_invariant sampleSession (by decide) [("x")] 2 7 1⟩

/-- C4 counterexample: with playback running, the ArrowRight jump moves the
ordinal forward but leaves playback running — this seek path does not pause
as a side effect. -/
theorem C4_counterexample_arrow_no_pause :
    (arrowRight { words := [("a"), ("b"), ("c")], idx := 0, playing := true }).idx = 2 ∧
    (arrowRight { words := [("a"), ("b"), ("c")], idx := 0, playing := true }).playing = true := by
  decide

/-- C4 (amended): the scrubber seek clamps the requested ordinal into
`[0, total-1]` and pauses playback; the table-of-contents jump and the page
click store the requested ordinal (unclamped) and pause; the arrow-key jumps
clamp into range but leave the play state unchanged, as does the bookmark
resume. -/
theorem C4_seek_paths (s : Session) (v j : ℕ) (h0 : 0 < s.words.length)
    (hs : SessionInv s) :
    ((scrubberSeek s v).idx = min v (s.words.length - 1) ∧
      (scrubberSeek s v).idx < s.words.length ∧
      (scrubberSeek s v).playing = false) ∧
    ((tocSeek s j).idx = j ∧ (tocSeek s j).playing = false) ∧
    ((pageClickSeek s j).idx = j ∧ (pageClickSeek s j).playing = false) ∧
    ((arrowLeft s).idx = s.idx - 10 ∧ (arrowLeft s).idx < s.words.length ∧
      (arrowLeft s).playing = s.playing) ∧
    ((arrowRight s).idx = min (s.words.length - 1) (s.idx + 10) ∧
      (arrowRight s).idx < s.words.length ∧
      (arrowRight s).playing = s.playing) ∧
    ((bookmarkResume s j).idx = j ∧ (bookmarkResume s j).playing = s.playing) := by
  have hidx := hs h0
  refine ⟨⟨rfl, ?_, rfl⟩, ⟨rfl, rfl⟩, ⟨rfl, rfl⟩, ⟨rfl, ?_, rfl⟩, ⟨rfl, ?_, rfl⟩, rfl, rfl⟩
  · show min v (s.words.length - 1) < s.words.length
    omega
  · show s.idx - 10 < s.words.length
    omega
  · show min (s.words.length - 1) (s.idx + 10) < s.words.length
    omega

/-- C4 witness: the seek-path behavior evaluated on a concrete playing
session. -/
theorem C4_seek_paths_witness :
    0 < sampleSession.words.length ∧ SessionInv sampleSession ∧
    (((scrubberSeek sampleSession 7).idx = min 7 (sampleSession.words.length - 1) ∧
      (scrubberSeek sampleSession 7).idx < sampleSession.words.length ∧
      (scrubberSeek sampleSession 7).playing = false) ∧
    ((tocSeek sampleSession 1).idx = 1 ∧ (tocSeek sampleSession 1).playing = false) ∧
    ((pageClickSeek sampleSession 1).idx = 1 ∧
      (pageClickSeek sampleSession 1).playing = false) ∧
    ((arrowLeft sampleSession).idx = sampleSession.idx - 10 ∧
      (arrowLeft sampleSession).idx < sampleSession.words.length ∧
      (arrowLeft sampleSession).playing = sampleSession.playing) ∧
    ((arrowRight sampleSession).idx = min (sampleSession.words.length - 1) (sampleSession.idx + 10) ∧
      (arrowRight sampleSession).idx < sampleSession.words.length ∧
      (arrowRight sampleSession).playing = sampleSession.playing) ∧
    ((bookmarkResume sampleSession 1).idx = 1 ∧
      (bookmarkResume sampleSession 1).playing = sampleSession.playing)) :=
  ⟨by decide, by decide, C4_seek_paths sampleSession 7 1 (by decide) (by decide)⟩

/-- C5: loading a document whose fingerprint has a bookmark with stored
ordinal strictly between 0 and the new total produces a resume offer, flagged
exact if and only if `|stored total - new total| / stored total ≤ 0.05`;
concretely, a bookmark `{ordinal 50, total 100}` reloaded against 96 tokens
is offered as exact, and against 80 tokens as approximate. -/
theorem C5_resume_drift (b : BookmarkRecord) (newTotal : ℕ)
    (h1 : 0 < b.wordIndex) (h2 : b.wordIndex < newTotal) (h3 : 0 < b.wordCount) :
    checkBookmark (some b) newTotal =
      some ⟨b.wordIndex,
        decide (|(b.wordCount : ℚ) - (newTotal : ℚ)| / (b.wordCount : ℚ) ≤ 0.05)⟩ ∧
    (checkBookmark (some b) newTotal = some ⟨b.wordIndex, true⟩ ↔
      |(b.wordCount : ℚ) - (newTotal : ℚ)| / (b.wordCount : ℚ) ≤ 0.05) ∧
    checkBookmark (some ⟨("doc"), 50, 100⟩) 96 = some ⟨50, true⟩ ∧
    checkBookmark (some ⟨("doc"), 50, 100⟩) 80 = some ⟨50, false⟩ := by
  have hmain : checkBookmark (some b) newTotal =
      some ⟨b.wordIndex,
        decide (|(b.wordCount : ℚ) - (newTotal : ℚ)| / (b.wordCount : ℚ) ≤ 0.05)⟩ := by
    simp only [checkBookmark]
    rw [if_pos ⟨h1, h2⟩, if_neg (Nat.pos_iff_ne_zero.mp h3)]
  refine ⟨hmain, ?_, ?_, ?_⟩
  · rw [hmain]
    simp [Resume.mk.injEq]
  · simp only [checkBookmark]
    rw [if_pos (by omega : (0 : ℕ) < 50 ∧ (50 : ℕ) < 96), if_neg (by omega : ¬ ((100 : ℕ) = 0))]
    simp only [Option.some.injEq, Resume.mk.injEq, decide_eq_true_eq, true_and]
    norm_num
  · simp only [checkBookmark]
    rw [if_pos (by omega : (0 : ℕ) < 50 ∧ (50 : ℕ) < 80), if_neg (by omega : ¬ ((100 : ℕ) = 0))]
    simp only [Option.some.injEq, Resume.mk.injEq, decide_eq_false_iff_not, true_and]
    norm_num

/-- C5 witness: the resume-offer theorem evaluated at the concrete bookmark
`{ordinal 50, total 100}` against a 96-token sequence. -/
theorem C5_resume_drift_witness :
    0 < 50 ∧ 50 < 96 ∧ 0 < 100 ∧
    (checkBookmark (some ⟨("doc"), 50, 100⟩) 96 =
      some ⟨50, decide (|((100 : ℕ) : ℚ) - ((96 : ℕ) : ℚ)| / ((100 : ℕ) : ℚ) ≤ 0.05)⟩ ∧
    (checkBookmark (some ⟨("doc"), 50, 100⟩) 96 = some ⟨50, true⟩ ↔
      |((100 : ℕ) : ℚ) - ((96 : ℕ) : ℚ)| / ((100 : ℕ) : ℚ) ≤ 0.05) ∧
    checkBookmark (some ⟨("doc"), 50, 100⟩) 96 = some ⟨50, true⟩ ∧
    checkBookmark (some ⟨("doc"), 50, 100⟩) 80 = some ⟨50, false⟩) :=
  ⟨by decide, by decide, by decide,
    C5_resume_drift ⟨("doc"), 50, 100⟩ 96 (by decide) (by decide) (by decide)⟩

/-- C6: every `addPin` result is sorted by ordinal with any two pins more
than 5 ordinals apart; inserting a pin at ordinal 0 twice stores exactly the
one-pin list `[0]` for the fingerprint; and `loadPins` keeps a persisted
close pair (ordinals 0 and 3) intact — the rule is enforced on insert, not
on read. -/
theorem C6_pin_rules :
    (∀ pins cur, List.Sorted (· ≤ ·) (addPin pins cur) ∧
      List.Pairwise (fun a b => a + 5 < b) (addPin pins cur)) ∧
    (addPinStore (addPinStore emptyPinStore ("doc") 0) ("doc") 0) ("doc") = [0] ∧
    loadPins [⟨some 0, some 10⟩, ⟨some 3, some 11⟩] =
      [⟨some 0, some 10⟩, ⟨some 3, some 11⟩] := by
  refine ⟨fun pins cur => ⟨addPin_sorted pins cur, addPin_pairwise pins cur⟩, ?_, ?_⟩
  · decide
  · decide

/-- C7 counterexample: arming the debounced auto-save at ordinal 3 of a
5-token document and then exiting discards the pending write — the store
still has no record for the fingerprint, so the last known position is lost
rather than flushed. -/
theorem C7_counterexample_exit_discards_save :
    (autoSaveEffect sampleAutoSave (some ("doc")) ("file") 3 5).pending =
      some ⟨("doc"), ("file"), 3, 5⟩ ∧
    (exitToHome (autoSaveEffect sampleAutoSave (some ("doc")) ("file") 3 5)).pending = none ∧
    (exitToHome (autoSaveEffect sampleAutoSave (some ("doc")) ("file") 3 5)).store ("doc") = none :=
  ⟨rfl, rfl, rfl⟩

/-- C7 (amended): exiting a session cancels any pending debounced bookmark
write without flushing it — the exit transition clears the pending write and
leaves the bookmark store exactly as it was, so a position reached within the
debounce interval before exit is not persisted. -/
theorem C7_exit_cancels_pending (a : AutoSaveState) :
    (exitToHome a).store = a.store ∧ (exitToHome a).pending = none :=
  ⟨rfl, rfl⟩

/-- C10: the auto-save effect itself never writes the store; when the current
ordinal is 0 it arms no debounced write (and a subsequent timer fire leaves
the store unchanged), so a previously saved position for the fingerprint
survives; a write is armed only when a fingerprint is present, the document
is non-empty and the ordinal is positive. -/
theorem C10_autosave_zero_frame (a : AutoSaveState) (h : Option String)
    (f : String) (i t : ℕ) :
    (autoSaveEffect a h f i t).store = a.store ∧
    (i = 0 → (autoSaveEffect a h f i t).pending = none) ∧
    (i = 0 → (autoSaveFire (autoSaveEffect a h f i t)).store = a.store) ∧
    ((autoSaveEffect a h f i t).pending ≠ none → h.isSome ∧ 0 < t ∧ 0 < i) := by
  cases h with
  | none => simp [autoSaveEffect, autoSaveFire]
  | some hh =>
    by_cases hcond : t = 0 ∨ i = 0
    · simp [autoSaveEffect, hcond, autoSaveFire]
    · push_neg at hcond
      refine ⟨?_, fun hi => absurd hi hcond.2, fun hi => absurd hi hcond.2, fun _ => ?_⟩
      · simp [autoSaveEffect, hcond.1, hcond.2]
      · exact ⟨rfl, Nat.pos_of_ne_zero hcond.1, Nat.pos_of_ne_zero hcond.2⟩

/-- C10 witness: the frame property evaluated at ordinal 0 with a loaded
5-token document and a present fingerprint. -/
theorem C10_autosave_zero_frame_witness :
    (autoSaveEffect sampleAutoSave (some ("doc")) ("file") 0 5).pending = none ∧
    (autoSaveFire (autoSaveEffect sampleAutoSave (some ("doc")) ("file") 0 5)).store =
      sampleAutoSave.store :=
  ⟨(C10_autosave_zero_frame sampleAutoSave (some ("doc")) ("file") 0 5).2.1 rfl,
   (C10_autosave_zero_frame sampleAutoSave (some ("doc")) ("file") 0 5).2.2.1 rfl⟩

end SpeedRead
